import Mathlib

/-!
# CampusMinus — semantic-search subsystem, shallow embedding

This file embeds the question / embedding / vector-search subsystem of the
CampusMinus Next.js application into Lean 4 and proves properties of it.

Sources embedded:
* `src/lib/services/EmbeddingService.ts` — `EmbeddingService.generateEmbedding`
* `src/lib/repositories/QuestionRepository.ts` — `create`, `update`,
  `searchByEmbedding`, `findById` hydration
* `src/lib/auth.ts` (QuestionService part) — `createQuestion`,
  `updateQuestion`, `searchQuestions`
* `src/lib/models/Question.ts`, `User.ts` — `getAuthorName`, `getDisplayName`
* the search API route (uses an inner `JOIN users`) and the embeddings API
  route.

Modelling conventions:
* Vector components are `ℚ` (the TS code treats them as opaque numerics; no
  floating-point rounding property is at stake in any claim).
* External effects (the Gemini provider call, database insert outcomes) are
  passed in as explicit arguments describing the outcome the environment
  produced, so every function is pure and total.
* The pgvector `<->` (L2) distance is modelled by the *squared* L2 distance
  `dist2`; squaring is strictly monotone on nonnegative reals, so the induced
  ordering of rows — the only thing any claim mentions — is identical.
* SQL `ORDER BY` is modelled by `List.insertionSort`, a deterministic stable
  sort refining the partial ordering the query requests.
* Timestamps (`createdAt`/`updatedAt`, set to `NOW()`) and answer counts are
  omitted: no claim mentions them.
-/

/-- The expected embedding dimension (`EmbeddingService.dimensions`,
`EMBEDDING_DIMENSIONS` in the embeddings route): 768. -/
def dimensions : Nat := 768

/-- JS `String.prototype.trim`: drop whitespace from both ends.  Defined over
the character list (structural recursion) so that concrete instances evaluate
inside the kernel. -/
def jsTrim (s : String) : String :=
  String.mk
    (((s.data.dropWhile Char.isWhitespace).reverse.dropWhile
        Char.isWhitespace).reverse)

/-- `needle` is a prefix of `hay` (character lists). -/
def charsStartWith : List Char → List Char → Bool
  | _, [] => true
  | [], _ :: _ => false
  | c :: cs, d :: ds => c = d && charsStartWith cs ds

/-- `needle` occurs contiguously in `hay` (character lists). -/
def charsContain : List Char → List Char → Bool
  | [], needle => needle.isEmpty
  | c :: t, needle => charsStartWith (c :: t) needle || charsContain t needle

/-- JS `String.prototype.includes`: substring containment. -/
def containsSubstr (s sub : String) : Bool :=
  charsContain s.data sub.data

/-- JS `email.split('@')[0]`: the characters before the first `'@'` (the
whole string when there is none). -/
def emailLocalPart (email : String) : String :=
  String.mk (email.data.takeWhile (fun c => ¬ c = '@'))

/-- A stored `users` row (`model User` in the Prisma schema; `name` is
nullable). -/
structure UserRow where
  id : String
  email : String
  name : Option String
  role : String
  deriving Repr, DecidableEq

/-- A stored `questions` row.  `userId` is nullable (migration
`make_question_user_nullable`: `ON DELETE SET NULL`), and `embedding` is a
nullable pgvector column. -/
structure QuestionRow where
  id : String
  title : String
  qtype : String
  description : String
  images : List String
  userId : Option String
  embedding : Option (List ℚ)
  deriving Repr, DecidableEq

/-- The hydrated `Question` model object (`src/lib/models/Question.ts`).
Note the class has *no* embedding field: hydration never exposes the vector. -/
structure Question where
  id : String
  title : String
  qtype : String
  description : String
  images : List String
  userId : Option String
  user : Option UserRow
  deriving Repr, DecidableEq

/-- `User.getDisplayName`: the user's name, or the part of the email before
the `@` (`this.name || this.email.split('@')[0]`).  A JS falsy name (empty
string) also falls through to the email prefix. -/
def UserRow.getDisplayName (u : UserRow) : String :=
  match u.name with
  | some n => if n = "" then emailLocalPart u.email else n
  | none => emailLocalPart u.email

/-- `Question.getAuthorName`: `this.user ? this.user.getDisplayName() :
'Deleted User'`. -/
def Question.getAuthorName (q : Question) : String :=
  match q.user with
  | some u => u.getDisplayName
  | none => "Deleted User"

/-- Hydration of a row into a `Question`, as `findById` /
`searchByEmbedding` do: the owning user is looked up by `userId`
(Prisma `include: { user: ... }` / SQL `LEFT JOIN users`), yielding `none`
when the owner was deleted. -/
def hydrate (users : List UserRow) (r : QuestionRow) : Question :=
  { id := r.id
    title := r.title
    qtype := r.qtype
    description := r.description
    images := r.images
    userId := r.userId
    user := r.userId.bind (fun uid => users.find? (fun u => u.id = uid)) }

/-! ## EmbeddingService.generateEmbedding -/

/-- What the Gemini provider call produced, from the point of view of the
adapter code: the fetch failed / returned non-ok status, the JSON had no
parseable numeric array, or a parseable numeric vector. -/
inductive ProviderResponse where
  | httpError
  | malformed
  | ok (values : List ℚ)
  deriving Repr, DecidableEq

/-- The failure kinds of `EmbeddingService.generateEmbedding`, in the order
the code can produce them. -/
inductive EmbedError where
  | notConfigured
  | emptyText
  | upstreamError
  | malformedResponse
  deriving Repr, DecidableEq

/-- `EmbeddingService.generateEmbedding` (src/lib/services/EmbeddingService.ts
lines 21–69), with the provider call's outcome passed in:

* no `GEMINI_API_KEY` → throw (`notConfigured`);
* empty / whitespace-only text → throw (`emptyText`);
* `!response.ok` → throw (`upstreamError`);
* response not a numeric array → throw (`malformedResponse`);
* `embedding.length !== 768` → `console.warn` and return
  `embedding.slice(0, 768)` — a JS `slice` that truncates a longer vector
  but returns a shorter vector unchanged;
* otherwise return the vector. -/
def generateEmbedding (apiKey : Option String) (text : String)
    (resp : ProviderResponse) : Except EmbedError (List ℚ) :=
  match apiKey with
  | none => .error .notConfigured
  | some _ =>
    if jsTrim text = "" then .error .emptyText
    else
      match resp with
      | .httpError => .error .upstreamError
      | .malformed => .error .malformedResponse
      | .ok values =>
        if values.length ≠ dimensions then .ok (values.take dimensions)
        else .ok values

/-! ## QuestionRepository.create -/

/-- The argument record of `QuestionRepository.create`. -/
structure CreateData where
  title : String
  qtype : String
  description : String
  images : List String
  userId : String
  embedding : Option (List ℚ)
  deriving Repr, DecidableEq

/-- The error-message test of `create`'s catch block
(`errorMessage.includes('embedding') || errorMessage.includes('column') ||
errorMessage.includes('42703')`). -/
def isVectorColumnError (msg : String) : Bool :=
  containsSubstr msg "embedding" || containsSubstr msg "column" ||
    containsSubstr msg "42703"

/-- `imageList`: `images.filter(url => typeof url === 'string' &&
url.trim().length > 0)` (every element of a `List String` is a string). -/
def cleanImages (images : List String) : List String :=
  images.filter (fun url => (jsTrim url).length > 0)

/-- The row the INSERT statement of `create` writes: trimmed scalar fields,
cleaned image list, the authenticated user's id, and the vector column only
when the insert carries one. -/
def mkQuestionRow (newId : String) (d : CreateData) (emb : Option (List ℚ)) :
    QuestionRow :=
  { id := newId
    title := jsTrim d.title
    qtype := jsTrim d.qtype
    description := jsTrim d.description
    images := cleanImages d.images
    userId := some d.userId
    embedding := emb }

/-- `QuestionRepository.create` (lines 157–231).  `newId` stands for the
freshly generated `randomUUID()`; `insertError` is the outcome of the insert
attempted inside the `try` (`none` = success, `some msg` = throw with message
`msg`); `retryError` likewise for the vector-free insert the catch block
retries with.  The with-vector insert runs only when
`data.embedding && Array.isArray(data.embedding) && data.embedding.length > 0`.
On a caught error whose message matches `isVectorColumnError`, the write is
redone without the vector column; any other error is rethrown.  The returned
`Question` is `findById(questionId)` — hydration of the inserted row (the
UUID is fresh, so the lookup finds exactly it). -/
def QuestionRepositoryCreate (db : List QuestionRow) (users : List UserRow)
    (newId : String) (d : CreateData) (insertError retryError : Option String) :
    Except String (List QuestionRow × Question) :=
  let withVector : Bool :=
    match d.embedding with
    | some (_ :: _) => true
    | some [] => false
    | none => false
  let firstRow := if withVector then mkQuestionRow newId d d.embedding
                  else mkQuestionRow newId d none
  match insertError with
  | none => .ok (db ++ [firstRow], hydrate users firstRow)
  | some msg =>
    if isVectorColumnError msg then
      match retryError with
      | none =>
        let row := mkQuestionRow newId d none
        .ok (db ++ [row], hydrate users row)
      | some m2 => .error m2
    else .error msg

/-! ## QuestionService.createQuestion -/

/-- Argument record of `QuestionService.createQuestion` (no embedding: the
service computes it). -/
structure NewQuestionData where
  title : String
  qtype : String
  description : String
  images : List String
  userId : String
  deriving Repr, DecidableEq

/-- `QuestionService.createQuestion` (src/lib/auth.ts QuestionService part,
lines 121–142): build `"${title.trim()} ${description.trim()}"`, try
`embeddingService.generateEmbedding`; on any thrown error log and continue
with `embedding = null`; then delegate to `QuestionRepository.create`. -/
def createQuestion (db : List QuestionRow) (users : List UserRow)
    (newId : String) (apiKey : Option String) (resp : ProviderResponse)
    (d : NewQuestionData) (insertError retryError : Option String) :
    Except String (List QuestionRow × Question) :=
  let emb : Option (List ℚ) :=
    match generateEmbedding apiKey
        (jsTrim d.title ++ " " ++ jsTrim d.description) resp with
    | .ok e => some e
    | .error _ => none
  QuestionRepositoryCreate db users newId
    ⟨d.title, d.qtype, d.description, d.images, d.userId, emb⟩
    insertError retryError

/-! ## QuestionRepository.update / QuestionService.updateQuestion -/

/-- The `Partial<Question>` patch `update` accepts.  JS truthiness governs
which fields are applied: `if (data.title)` skips `undefined` *and* the empty
string; `if (data.images)` is true for any array, including `[]`. -/
structure UpdatePatch where
  title : Option String
  qtype : Option String
  description : Option String
  images : Option (List String)
  deriving Repr, DecidableEq

/-- The `updateData` object `update` hands to Prisma, applied to a row.
No embedding key is ever placed in `updateData`: the vector column is
untouched. -/
def applyPatch (r : QuestionRow) (p : UpdatePatch) : QuestionRow :=
  let r1 := match p.title with
    | some t => if t = "" then r else { r with title := t }
    | none => r
  let r2 := match p.qtype with
    | some t => if t = "" then r1 else { r1 with qtype := t }
    | none => r1
  let r3 := match p.description with
    | some t => if t = "" then r2 else { r2 with description := t }
    | none => r2
  match p.images with
  | some imgs => { r3 with images := imgs }
  | none => r3

/-- `QuestionRepository.update` (lines 236–250): update the row whose id
matches, leaving every other row — and every unpatched column — unchanged. -/
def QuestionRepositoryUpdate (db : List QuestionRow) (id : String)
    (p : UpdatePatch) : List QuestionRow :=
  db.map (fun r => if r.id = id then applyPatch r p else r)

/-- `QuestionService.updateQuestion` (auth.ts QuestionService lines 147–149):
a pure delegation to the repository. -/
def updateQuestion (db : List QuestionRow) (id : String) (p : UpdatePatch) :
    List QuestionRow :=
  QuestionRepositoryUpdate db id p

/-! ## Vector search -/

/-- Squared L2 distance between two stored vectors, the monotone square of
pgvector's `<->`; `zipWith` mirrors componentwise pairing. -/
def dist2 (a b : List ℚ) : ℚ :=
  (List.zipWith (fun x y => (x - y) * (x - y)) a b).sum

/-- The sort key of `ORDER BY q.embedding <-> $vector`: the (squared)
distance of a row's stored vector to the query vector. -/
def rowScore (emb : List ℚ) (r : QuestionRow) : ℚ :=
  dist2 (r.embedding.getD []) emb

/-- The row set produced by `searchByEmbedding`'s SQL
(`WHERE q.embedding IS NOT NULL ORDER BY q.embedding <-> $v LIMIT $k`):
keep rows with a stored vector, sort by ascending distance, take `k`. -/
def searchRows (db : List QuestionRow) (emb : List ℚ) (limit : Nat) :
    List QuestionRow :=
  ((db.filter (fun r => r.embedding.isSome)).insertionSort
      (fun r s => rowScore emb r ≤ rowScore emb s)).take limit

/-- `QuestionRepository.searchByEmbedding` (lines 265–308): run the query
(`LEFT JOIN users` — owner may be absent) and hydrate each row into a
`Question`. -/
def searchByEmbedding (db : List QuestionRow) (users : List UserRow)
    (emb : List ℚ) (limit : Nat) : List Question :=
  (searchRows db emb limit).map (hydrate users)

/-- `QuestionService.searchQuestions` (auth.ts QuestionService lines
161–167): generate the query embedding — any failure propagates — then
delegate to `searchByEmbedding`. -/
def searchQuestions (db : List QuestionRow) (users : List UserRow)
    (apiKey : Option String) (resp : ProviderResponse) (query : String)
    (limit : Nat) : Except EmbedError (List Question) :=
  match generateEmbedding apiKey query resp with
  | .error e => .error e
  | .ok emb => .ok (searchByEmbedding db users emb limit)

/-! ## The search API route (inner join) -/

/-- The search route's SQL differs from the repository's in one way: it uses
`JOIN users u ON q."userId" = u.id` — an *inner* join — so a question row
whose `userId` is NULL (owner deleted) or dangling produces no result row.
Join, filter on a stored vector, order by distance, limit. -/
def searchRouteRows (db : List QuestionRow) (users : List UserRow)
    (emb : List ℚ) (limit : Nat) : List (QuestionRow × UserRow) :=
  (((db.filter (fun r => r.embedding.isSome)).filterMap
      (fun r => (r.userId.bind (fun uid => users.find? (fun u => u.id = uid))).map
        (fun u => (r, u)))).insertionSort
      (fun p q => rowScore emb p.1 ≤ rowScore emb q.1)).take limit

/-- Externally visible effects of the search route, in order. -/
inductive Effect where
  | providerCall
  | dbQuery
  deriving Repr, DecidableEq

/-- The error outcomes of the search route POST handler. -/
inductive RouteError where
  | invalidInput
  | embedFailed
  | invalidEmbedding
  deriving Repr, DecidableEq

/-- Outcome of the route's internal fetch of `/api/ai/embeddings`. -/
inductive EmbedApiResult where
  | notOk
  | okInvalid
  | okEmbedding (emb : List ℚ)
  deriving Repr, DecidableEq

/-- The search route POST handler, with its effect trace.  The body's
`query` may be absent (`none`); `!query || !query.trim()` rejects an absent,
empty, or whitespace-only query with a 400 *before* the embeddings fetch and
before any database query.  Then the route calls the embeddings API
(`providerCall`), rejects a failed or unparseable response with a 500, and
finally runs the similarity query (`dbQuery`). -/
def searchRoutePOST (query : Option String) (limit : Nat)
    (resp : EmbedApiResult) (db : List QuestionRow) (users : List UserRow) :
    Except RouteError (List (QuestionRow × UserRow)) × List Effect :=
  match query with
  | none => (.error .invalidInput, [])
  | some q =>
    if jsTrim q = "" then (.error .invalidInput, [])
    else
      match resp with
      | .notOk => (.error .embedFailed, [.providerCall])
      | .okInvalid => (.error .invalidEmbedding, [.providerCall])
      | .okEmbedding emb =>
        (.ok (searchRouteRows db users emb limit), [.providerCall, .dbQuery])

/-! ## Theorems -/

/-- C3 counterexample.  The claim says a parseable vector *strictly shorter*
than `D = 768` makes `generateEmbedding` fail with a `DimensionMismatch`
error.  With a configured key, non-empty text and a provider vector of length
1, the adapter instead returns `.ok [1]` — `embedding.slice(0, 768)` of a
shorter array is the array itself, and no error is raised. -/
theorem generateEmbedding_short_vector_is_ok :
    generateEmbedding (some "key") "how to study" (ProviderResponse.ok [1]) =
      .ok [1] ∧ 1 < dimensions := by
  constructor
  · rfl
  · decide

/-- C3 (amended): on a parseable provider vector `values` (configured key,
non-empty text), `generateEmbedding` always succeeds with
`values.take dimensions`: a longer vector is truncated to `D = 768`, while a
vector of length ≤ `D` — in particular a strictly shorter one — is returned
unchanged, never rejected. -/
theorem generateEmbedding_dimension_policy (key text : String)
    (values : List ℚ) (h : ¬ jsTrim text = "") :
    generateEmbedding (some key) text (ProviderResponse.ok values) =
      .ok (values.take dimensions) ∧
    (values.length ≤ dimensions →
      generateEmbedding (some key) text (ProviderResponse.ok values) =
        .ok values) := by
  have hbase : generateEmbedding (some key) text (ProviderResponse.ok values) =
      if values.length ≠ dimensions then .ok (values.take dimensions)
      else .ok values := by
    show (if jsTrim text = "" then (.error .emptyText : Except EmbedError (List ℚ))
        else if values.length ≠ dimensions then .ok (values.take dimensions)
        else .ok values) = _
    rw [if_neg h]
  constructor
  · rw [hbase]
    by_cases hl : values.length = dimensions
    · rw [if_neg (by simp [hl]), List.take_of_length_le (le_of_eq hl)]
    · rw [if_pos hl]
  · intro hle
    rw [hbase]
    by_cases hl : values.length = dimensions
    · rw [if_neg (by simp [hl])]
    · rw [if_pos hl, List.take_of_length_le hle]

/-- Witness for `generateEmbedding_dimension_policy` at key `"k"`, text
`"q"`, vector `[1]`. -/
theorem generateEmbedding_dimension_policy_witness :
    generateEmbedding (some "k") "q" (ProviderResponse.ok [1]) =
      .ok (([1] : List ℚ).take dimensions) ∧
    (([1] : List ℚ).length ≤ dimensions →
      generateEmbedding (some "k") "q" (ProviderResponse.ok [1]) =
        .ok [1]) :=
  generateEmbedding_dimension_policy "k" "q" [1] (by decide)

/-- C1: when `create` is given a non-empty embedding vector and the
with-vector insert throws an error whose message matches the
unknown-column/type class (`embedding` / `column` / SQLSTATE `42703`), the
write is retried without the vector component, the row is created, and
`create` returns the hydrated Question without surfacing any error. -/
theorem create_degrades_on_vector_column_error (db : List QuestionRow)
    (users : List UserRow) (newId : String) (d : CreateData) (e : List ℚ)
    (msg : String) (hemb : d.embedding = some e) (hne : 0 < e.length)
    (herr : isVectorColumnError msg = true) :
    QuestionRepositoryCreate db users newId d (some msg) none =
      .ok (db ++ [mkQuestionRow newId d none],
        hydrate users (mkQuestionRow newId d none)) := by
  unfold QuestionRepositoryCreate
  simp [herr]

/-- Witness for `create_degrades_on_vector_column_error`: empty database, a
one-component vector, and the Postgres message for a missing column. -/
theorem create_degrades_on_vector_column_error_witness :
    QuestionRepositoryCreate [] [] "q1"
        ⟨"T", "doubt", "D", [], "u1", some [1]⟩
        (some "column \x22embedding\x22 of relation \x22questions\x22 does not exist")
        none =
      .ok ([mkQuestionRow "q1" ⟨"T", "doubt", "D", [], "u1", some [1]⟩ none],
        hydrate [] (mkQuestionRow "q1" ⟨"T", "doubt", "D", [], "u1", some [1]⟩
          none)) :=
  create_degrades_on_vector_column_error [] [] "q1"
    ⟨"T", "doubt", "D", [], "u1", some [1]⟩ [1]
    "column \x22embedding\x22 of relation \x22questions\x22 does not exist"
    rfl (by decide) (by decide)

/-- C2: whenever `generateEmbedding` fails on the `"title desc"` text — any
of its failure kinds — `QuestionService.createQuestion` still succeeds
(storage healthy): the row is inserted with a NULL embedding and the hydrated
Question is returned; the provider failure is not propagated. -/
theorem createQuestion_survives_provider_failure (db : List QuestionRow)
    (users : List UserRow) (newId : String) (apiKey : Option String)
    (resp : ProviderResponse) (d : NewQuestionData) (err : EmbedError)
    (hfail : generateEmbedding apiKey
        (jsTrim d.title ++ " " ++ jsTrim d.description) resp = .error err) :
    createQuestion db users newId apiKey resp d none none =
      .ok (db ++ [mkQuestionRow newId
            ⟨d.title, d.qtype, d.description, d.images, d.userId, none⟩ none],
        hydrate users (mkQuestionRow newId
            ⟨d.title, d.qtype, d.description, d.images, d.userId, none⟩ none)) := by
  unfold createQuestion
  rw [hfail]
  rfl

/-- Witness for `createQuestion_survives_provider_failure`: provider not
configured (no API key). -/
theorem createQuestion_survives_provider_failure_witness :
    createQuestion [] [] "q1" none ProviderResponse.httpError
        ⟨"T", "doubt", "D", [], "u1"⟩ none none =
      .ok ([mkQuestionRow "q1" ⟨"T", "doubt", "D", [], "u1", none⟩ none],
        hydrate [] (mkQuestionRow "q1" ⟨"T", "doubt", "D", [], "u1", none⟩
          none)) :=
  createQuestion_survives_provider_failure [] [] "q1" none
    ProviderResponse.httpError ⟨"T", "doubt", "D", [], "u1"⟩
    EmbedError.notConfigured rfl

/-- C10: `QuestionRepository.create` treats an empty-array embedding exactly
like an absent one — `data.embedding.length > 0` fails, so the vector-free
insert runs; and with healthy storage the inserted row carries a NULL
embedding. -/
theorem create_empty_embedding_like_null (db : List QuestionRow)
    (users : List UserRow) (newId : String)
    (title qtype description : String) (images : List String)
    (userId : String) (insertError retryError : Option String) :
    QuestionRepositoryCreate db users newId
        ⟨title, qtype, description, images, userId, some []⟩
        insertError retryError =
      QuestionRepositoryCreate db users newId
        ⟨title, qtype, description, images, userId, none⟩
        insertError retryError ∧
    QuestionRepositoryCreate db users newId
        ⟨title, qtype, description, images, userId, some []⟩ none retryError =
      .ok (db ++ [mkQuestionRow newId
            ⟨title, qtype, description, images, userId, none⟩ none],
        hydrate users (mkQuestionRow newId
            ⟨title, qtype, description, images, userId, none⟩ none)) := by
  constructor
  · rfl
  · rfl

/-- Any vector `generateEmbedding` returns has at most `dimensions`
components (helper for the ingestion-shape theorem). -/
theorem generateEmbedding_length_le (apiKey : Option String) (text : String)
    (resp : ProviderResponse) (v : List ℚ)
    (h : generateEmbedding apiKey text resp = .ok v) :
    v.length ≤ dimensions := by
  unfold generateEmbedding at h
  split at h
  · exact Except.noConfusion h
  · split at h
    · exact Except.noConfusion h
    · split at h
      · exact Except.noConfusion h
      · exact Except.noConfusion h
      · split at h
        · cases h
          exact List.length_take_le _ _
        · next hlen =>
          cases h
          exact le_of_eq (not_not.mp hlen)

/-- C5 counterexample.  The claim says a vector strictly shorter than
`D = 768` is never stored.  With a healthy storage and a provider returning
the parseable 3-component vector `[1, 2, 3]`, `createQuestion` succeeds and
the inserted row carries exactly that 3-component embedding, `3 < 768`. -/
theorem createQuestion_stores_short_vector :
    createQuestion [] [] "q1" (some "k") (ProviderResponse.ok [1, 2, 3])
        ⟨"Title", "doubt", "Desc", [], "u1"⟩ none none =
      .ok ([⟨"q1", "Title", "doubt", "Desc", [], some "u1", some [1, 2, 3]⟩],
        ⟨"q1", "Title", "doubt", "Desc", [], some "u1", none⟩) ∧
    3 < dimensions := by
  constructor
  · rfl
  · decide

/-- C5 (amended): with healthy storage, `createQuestion` always succeeds and
the stored row's embedding is either absent or a vector of at least one and
at most `D = 768` components — the provider's parseable vector truncated to
`D` — and creation never fails because of the embedding's shape.  (The
original "exactly `D`" is refuted by `createQuestion_stores_short_vector`:
a strictly shorter provider vector is stored as-is.) -/
theorem createQuestion_stored_embedding_shape (db : List QuestionRow)
    (users : List UserRow) (newId : String) (apiKey : Option String)
    (resp : ProviderResponse) (d : NewQuestionData) :
    ∃ e : Option (List ℚ),
      (e = none ∨ ∃ v, e = some v ∧ 0 < v.length ∧ v.length ≤ dimensions) ∧
      createQuestion db users newId apiKey resp d none none =
        .ok (db ++ [mkQuestionRow newId
              ⟨d.title, d.qtype, d.description, d.images, d.userId, e⟩ e],
          hydrate users (mkQuestionRow newId
              ⟨d.title, d.qtype, d.description, d.images, d.userId, e⟩ e)) := by
  unfold createQuestion
  cases hg : generateEmbedding apiKey
      (jsTrim d.title ++ " " ++ jsTrim d.description) resp with
  | error err =>
    exact ⟨none, Or.inl rfl, rfl⟩
  | ok v =>
    cases v with
    | nil =>
      exact ⟨none, Or.inl rfl, rfl⟩
    | cons x xs =>
      exact ⟨some (x :: xs),
        Or.inr ⟨x :: xs, rfl, Nat.succ_pos xs.length,
          generateEmbedding_length_le _ _ _ _ hg⟩, rfl⟩

/-- C7: a search whose query is empty — or whitespace-only, so that it trims
to the empty string — is rejected with the invalid-input client error (HTTP
400), and the effect trace is empty: no call to the embedding provider and
no database query has happened. -/
theorem searchRoute_rejects_empty_query (q : String) (limit : Nat)
    (resp : EmbedApiResult) (db : List QuestionRow) (users : List UserRow)
    (h : jsTrim q = "") :
    searchRoutePOST (some q) limit resp db users =
      (.error .invalidInput, []) := by
  simp [searchRoutePOST, h]

/-- Witness for `searchRoute_rejects_empty_query` at the whitespace-only
query `"   "`. -/
theorem searchRoute_rejects_empty_query_witness :
    searchRoutePOST (some "   ") 5 EmbedApiResult.notOk [] [] =
      (.error .invalidInput, []) :=
  searchRoute_rejects_empty_query "   " 5 EmbedApiResult.notOk [] [] (by decide)

/-- `applyPatch` never changes a row's id (helper for the frame theorem). -/
theorem applyPatch_id (r : QuestionRow) (p : UpdatePatch) :
    (applyPatch r p).id = r.id := by
  unfold applyPatch
  rcases p with ⟨t, ty, de, im⟩
  cases t <;> cases ty <;> cases de <;> cases im <;> dsimp only <;>
    split_ifs <;> rfl

/-- `applyPatch` never changes a row's embedding (helper for the frame
theorem). -/
theorem applyPatch_embedding (r : QuestionRow) (p : UpdatePatch) :
    (applyPatch r p).embedding = r.embedding := by
  unfold applyPatch
  rcases p with ⟨t, ty, de, im⟩
  cases t <;> cases ty <;> cases de <;> cases im <;> dsimp only <;>
    split_ifs <;> rfl

/-- C8: `updateQuestion` (delegating to `QuestionRepository.update`) leaves
every row's stored embedding unchanged — the `(id, embedding)` column pair of
the whole table is the same before and after any update patch (title, type,
description, or images). -/
theorem updateQuestion_preserves_embeddings (db : List QuestionRow)
    (id : String) (p : UpdatePatch) :
    (updateQuestion db id p).map (fun r => (r.id, r.embedding)) =
      db.map (fun r => (r.id, r.embedding)) := by
  unfold updateQuestion QuestionRepositoryUpdate
  rw [List.map_map]
  refine List.map_congr_left ?_
  intro r _
  by_cases h : r.id = id
  · simp [Function.comp, h, applyPatch_id, applyPatch_embedding]
  · simp [Function.comp, h]

/-- C4: `searchByEmbedding` returns at most `k` question records; the
returned list is the hydration of the row set `searchRows`, which is ordered
by ascending distance of the stored vector to the query vector, and contains
only rows whose stored embedding is non-null — rows without a vector are
excluded by the `WHERE q.embedding IS NOT NULL` filter, not scored. -/
theorem searchByEmbedding_spec (db : List QuestionRow) (users : List UserRow)
    (emb : List ℚ) (k : Nat) :
    (searchByEmbedding db users emb k).length ≤ k ∧
    List.Sorted (fun r s => rowScore emb r ≤ rowScore emb s)
      (searchRows db emb k) ∧
    searchByEmbedding db users emb k =
      (searchRows db emb k).map (hydrate users) ∧
    ∀ r ∈ searchRows db emb k, r.embedding.isSome := by
  haveI hT : IsTotal QuestionRow (fun r s => rowScore emb r ≤ rowScore emb s) :=
    ⟨fun a b => le_total _ _⟩
  haveI hR : IsTrans QuestionRow (fun r s => rowScore emb r ≤ rowScore emb s) :=
    ⟨fun a b c hab hbc => le_trans hab hbc⟩
  refine ⟨?_, ?_, rfl, ?_⟩
  · unfold searchByEmbedding searchRows
    rw [List.length_map]
    exact List.length_take_le _ _
  · unfold searchRows
    exact (List.sorted_insertionSort _ _).sublist (List.take_sublist _ _)
  · intro r hr
    unfold searchRows at hr
    have h1 := List.take_subset _ _ hr
    have h2 := (List.mem_insertionSort _).mp h1
    exact (List.mem_filter.mp h2).2

/-- Witness for `searchByEmbedding_spec` on a one-row database, applying the
universally quantified no-null-vector clause to the stored row. -/
theorem searchByEmbedding_spec_witness :
    (searchByEmbedding [⟨"q1", "T", "t", "D", [], none, some [0]⟩] [] [0]
      1).length ≤ 1 ∧
    (⟨"q1", "T", "t", "D", [], none, some [0]⟩ : QuestionRow).embedding.isSome := by
  have h := searchByEmbedding_spec [⟨"q1", "T", "t", "D", [], none, some [0]⟩]
    [] [0] 1
  exact ⟨h.1, h.2.2.2 _ (by decide)⟩

/-- C9: search is deterministic over a fixed state.  With the database, the
user table, the provider configuration and the provider's response to the
query text all fixed (no intervening writes), any two invocations of
`searchQuestions` that both succeed return the same list of question ids in
the same order. -/
theorem searchQuestions_deterministic (db : List QuestionRow)
    (users : List UserRow) (apiKey : Option String) (resp : ProviderResponse)
    (query : String) (k : Nat) (out₁ out₂ : List Question)
    (h1 : searchQuestions db users apiKey resp query k = .ok out₁)
    (h2 : searchQuestions db users apiKey resp query k = .ok out₂) :
    out₁.map Question.id = out₂.map Question.id := by
  rw [h1] at h2
  injection h2 with h
  rw [h]

/-- Witness for `searchQuestions_deterministic` at a concrete succeeding
search. -/
theorem searchQuestions_deterministic_witness :
    ([] : List Question).map Question.id =
      ([] : List Question).map Question.id :=
  searchQuestions_deterministic [] [] (some "k") (ProviderResponse.ok [1])
    "q" 3 [] [] rfl rfl

/-- C6 counterexample.  Two questions both carry stored vectors, so both
match a semantic search with limit 5; the second one's owner was deleted
(`userId` NULL).  The search API route's row set — built with an inner
`JOIN users` — contains only the owned question: the deleted-owner question
is dropped, not hydrated with a sentinel author. -/
theorem searchRoute_drops_deleted_owner :
    searchRouteRows
        [⟨"q1", "T", "t", "D", [], some "u1", some [10]⟩,
         ⟨"q2", "T2", "t", "D2", [], none, some [0]⟩]
        [⟨"u1", "ann@campus.edu", some "Ann", "STUDENT"⟩] [0] 5 =
      [(⟨"q1", "T", "t", "D", [], some "u1", some [10]⟩,
        ⟨"u1", "ann@campus.edu", some "Ann", "STUDENT"⟩)] ∧
    (⟨"q2", "T2", "t", "D2", [], none, some [0]⟩ :
      QuestionRow).embedding.isSome := by
  constructor
  · rfl
  · rfl

/-- C6 (amended): in the repository path (`searchByEmbedding`, whose SQL uses
`LEFT JOIN users`), every matched row — including one whose owner was deleted
— is hydrated and included in the returned list, and a row with a NULL owner
reference is hydrated with no user, so `getAuthorName` yields the
`"Deleted User"` sentinel.  The standalone search API route instead uses an
inner `JOIN users` and drops such questions
(`searchRoute_drops_deleted_owner`). -/
theorem searchByEmbedding_keeps_deleted_owner (db : List QuestionRow)
    (users : List UserRow) (emb : List ℚ) (k : Nat) (r : QuestionRow)
    (hr : r ∈ searchRows db emb k) :
    hydrate users r ∈ searchByEmbedding db users emb k ∧
    (r.userId = none →
      (hydrate users r).getAuthorName = "Deleted User") := by
  constructor
  · exact List.mem_map_of_mem _ hr
  · intro h
    simp [hydrate, Question.getAuthorName, h]

/-- Witness for `searchByEmbedding_keeps_deleted_owner`: a single matched
row whose owner reference is NULL. -/
theorem searchByEmbedding_keeps_deleted_owner_witness :
    hydrate [] ⟨"q2", "T2", "t", "D2", [], none, some [0]⟩ ∈
      searchByEmbedding [⟨"q2", "T2", "t", "D2", [], none, some [0]⟩] [] [0]
        1 ∧
    ((⟨"q2", "T2", "t", "D2", [], none, some [0]⟩ : QuestionRow).userId =
        none →
      (hydrate [] ⟨"q2", "T2", "t", "D2", [], none, some [0]⟩).getAuthorName =
        "Deleted User") :=
  searchByEmbedding_keeps_deleted_owner
    [⟨"q2", "T2", "t", "D2", [], none, some [0]⟩] [] [0] 1
    ⟨"q2", "T2", "t", "D2", [], none, some [0]⟩ (by decide)
